import Mathlib

/-!
Shallow embedding of `torch/legacy/nn/BatchNormalization.py` (legacy batch
normalization layer for 2D batch-major input) together with spec-level models
of the external THNN numeric kernels it dispatches to.

Modelling conventions:

* Python scalars (floats) are modelled as `Rat`; the real square root needed
  by the forward kernel is modelled by the rational approximation `ratSqrt`.
* A tensor is a shape list plus flattened row-major data and a contiguity bit.
* A Python attribute that may be absent from an object `__dict__` is modelled
  by `Attr`: `absent` means `hasattr` is false, `val v` means the attribute is
  present and holds `v` (`val none` is Python `None`).  `hasattr` never becomes
  false again once `__init__` has assigned the attribute, which is what the
  `Attr` transitions below reproduce.
* A method that can raise returns the post-call object state together with
  `Except PyErr` (Python mutates the object in place, so mutations performed
  before a raise survive; the definitions thread the state accordingly).
* The external tensor allocator (`torch.zeros` and friends) is a collaborator
  outside this module; it is modelled as total, with fresh uninitialized
  memory modelled as zeros and negative allocation sizes clamping to empty.
-/

namespace LegacyBN

/-- Presence-aware model of one Python attribute slot. -/
inductive Attr (α : Type) where
  | absent
  | val (v : Option α)
deriving DecidableEq

/-- Python `hasattr` on the modelled slot. -/
def Attr.present {α : Type} : Attr α → Bool
  | .absent => false
  | .val _ => true

/-- The value held by the slot, `none` when absent or Python `None`. -/
def Attr.value {α : Type} : Attr α → Option α
  | .absent => none
  | .val v => v

/-- Row-major N-dimensional tensor: shape, flattened data, contiguity flag. -/
structure PyTensor where
  shape : List Nat
  data : List Rat
  contig : Bool := true
deriving DecidableEq

/-- Number of dimensions, Python `tensor.dim()`. -/
def PyTensor.dim (t : PyTensor) : Nat := t.shape.length

/-- Size of one dimension, Python `tensor.size(i)`. -/
def PyTensor.size (t : PyTensor) (i : Nat) : Nat := t.shape.getD i 0

/-- The fresh empty tensor `torch.Tensor()` / `input.new()`. -/
def PyTensor.empty : PyTensor := { shape := [], data := [], contig := true }

/-- Errors a call can raise: `RuntimeError(msg)`, a bare `assert` failure,
`NameError` and `AttributeError` on an undefined name or attribute, and
`nullCache`, which stands for the undefined behaviour of the external THNN
kernel when it is handed `None` where it expects a populated cache tensor
(this is an external crash, not an error raised by the module). -/
inductive PyErr where
  | runtimeError (msg : String)
  | assertionError
  | nameError (id : String)
  | attributeError (id : String)
  | nullCache
deriving DecidableEq

/-- Python `str.format`: each occurrence of an open brace immediately followed
by a close brace is replaced by the next positional argument; every other
character, including percent-style placeholders such as the character pair
percent-d, is copied verbatim. -/
def formatOpen : Char := Char.ofNat 123

/-- Close brace character of a replacement field. -/
def formatClose : Char := Char.ofNat 125

/-- Character-level worker for `pyFormat`. -/
def pyFormatAux : List Char → List String → List Char
  | c1 :: c2 :: rest, a :: args =>
      if c1 = formatOpen ∧ c2 = formatClose then
        a.data ++ pyFormatAux rest args
      else
        c1 :: pyFormatAux (c2 :: rest) (a :: args)
  | cs, _ => cs

/-- Python `template.format(args...)` restricted to empty replacement fields,
which is all this module uses. -/
def pyFormat (template : String) (args : List String) : String :=
  ⟨pyFormatAux template.data args⟩

/-- Layer state: the fields assigned by `BatchNormalization.__init__` plus the
fields inherited from the base `nn.Module` (`output`, `gradInput`) and the
attribute slots that other methods may create or that old saved models may
carry (`_input`, `_gradOutput`, the five legacy buffers, `running_std`). -/
structure BN where
  affine : Bool
  eps : Rat
  train : Bool
  momentum : Rat
  running_mean : List Rat
  running_var : List Rat
  save_mean : Attr (List Rat)
  save_std : Attr (List Rat)
  weight : Option (List Rat)
  bias : Option (List Rat)
  gradWeight : Option (List Rat)
  gradBias : Option (List Rat)
  output : PyTensor
  gradInput : PyTensor
  _input : Attr PyTensor
  _gradOutput : Attr PyTensor
  buffer : Attr PyTensor
  buffer2 : Attr PyTensor
  centered : Attr PyTensor
  std : Attr PyTensor
  normalized : Attr PyTensor
  running_std : Attr (List Rat)
deriving DecidableEq

/-- External allocator `torch.zeros(n)`, modelled as total. -/
def torchZeros (n : Int) : List Rat := List.replicate n.toNat 0

/-- External allocator `torch.ones(n)`, modelled as total. -/
def torchOnes (n : Int) : List Rat := List.replicate n.toNat 1

/-- External allocator `torch.Tensor(n)`: uninitialized memory, modelled as
zeros. -/
def torchTensorAlloc (n : Int) : List Rat := List.replicate n.toNat 0

/-- In-place `tensor.uniform()`: fills the tensor with draws from the external
random number generator, modelled as an oracle stream of draws. -/
def uniformFill (len : Nat) (draws : Nat → Rat) : List Rat :=
  (List.range len).map draws

/-- `tensor.resizeAs`-style data resize: existing elements survive, newly
exposed memory is modelled as zeros. -/
def resizeList (v : List Rat) (len : Nat) : List Rat :=
  (v ++ List.replicate len 0).take len

/-- `reset`: zero the running mean, fill the running variance with ones and,
when the affine parameters exist (the source tests their truthiness), draw the
weight uniformly and zero the bias. -/
def reset (st : BN) (draws : Nat → Rat) : BN :=
  let st1 := match st.weight with
    | some w => { st with weight := some (uniformFill w.length draws) }
    | none => st
  let st2 := match st1.bias with
    | some b => { st1 with bias := some (List.replicate b.length 0) }
    | none => st1
  { st2 with
    running_mean := List.replicate st2.running_mean.length 0,
    running_var := List.replicate st2.running_var.length 1 }

/-- `__init__(nOutput, eps, momentum, affine)`: `assert nOutput != 0`, then
allocate the running statistics, set the cache attributes to `None`, and when
affine allocate the parameters and their gradient accumulators and call
`reset`.  The base `nn.Module` constructor contributes the empty `output` and
`gradInput` buffers. -/
def init (nOutput : Int) (eps momentum : Rat) (affine : Bool)
    (draws : Nat → Rat) : Except PyErr BN :=
  if nOutput = 0 then .error .assertionError
  else
    let base : BN := {
      affine := affine, eps := eps, train := true, momentum := momentum,
      running_mean := torchZeros nOutput, running_var := torchOnes nOutput,
      save_mean := .val none, save_std := .val none,
      weight := none, bias := none, gradWeight := none, gradBias := none,
      output := PyTensor.empty, gradInput := PyTensor.empty,
      _input := .absent, _gradOutput := .absent,
      buffer := .absent, buffer2 := .absent, centered := .absent,
      std := .absent, normalized := .absent, running_std := .absent }
    if affine then
      let st := { base with
        weight := some (torchTensorAlloc nOutput),
        bias := some (torchTensorAlloc nOutput),
        gradWeight := some (torchTensorAlloc nOutput),
        gradBias := some (torchTensorAlloc nOutput) }
      .ok (reset st draws)
    else
      .ok base

/-- The message of the (intended) backward-before-forward guard. -/
def stateErrorMsg : String :=
  "you have to call updateOutput() at least once before backward()"

/-- `_checkInputDim`: rank must be 2 and the second dimension must equal the
feature count `self.running_mean.nElement()`; the messages are built with
Python `str.format` exactly as written in the source. -/
def _checkInputDim (st : BN) (input : PyTensor) : Option PyErr :=
  if input.dim ≠ 2 then
    some (.runtimeError (pyFormat
      "only mini-batch supported (2D tensor), got \x7b\x7dD tensor instead"
      [toString input.dim]))
  else if input.size 1 ≠ st.running_mean.length then
    some (.runtimeError (pyFormat
      "got %d-feature tensor, expected %d"
      [toString (input.size 1), toString st.running_mean.length]))
  else none

/-- Contiguous copy of a tensor (`resizeAs(t).copy(t)` into a buffer). -/
def contigCopy (t : PyTensor) : PyTensor :=
  { shape := t.shape, data := t.data, contig := true }

/-- First block of `_makeContiguous`: a non-contiguous input is copied into
the `_input` buffer.  The source reads `self._input` before ever assigning it,
so when that attribute is still absent the read raises `AttributeError`. -/
def makeContigInput (st : BN) (input : PyTensor) : BN × Except PyErr PyTensor :=
  if input.contig then (st, .ok input)
  else match st._input with
    | .absent => (st, .error (.attributeError "_input"))
    | .val _ =>
        let buf := contigCopy input
        ({ st with _input := .val (some buf) }, .ok buf)

/-- Second block of `_makeContiguous`: the same treatment for a gradOutput
argument, using the `_gradOutput` buffer. -/
def makeContigGradOutput (st : BN) (go : PyTensor) : BN × Except PyErr PyTensor :=
  if go.contig then (st, .ok go)
  else match st._gradOutput with
    | .absent => (st, .error (.attributeError "_gradOutput"))
    | .val _ =>
        let buf := contigCopy go
        ({ st with _gradOutput := .val (some buf) }, .ok buf)

/-- `_makeContiguous`: the two blocks in source order; mutations made before a
raise survive, hence the post-state is returned alongside the result. -/
def _makeContiguous (st : BN) (input : PyTensor) (gradOutput : Option PyTensor) :
    BN × Except PyErr (PyTensor × Option PyTensor) :=
  match makeContigInput st input with
  | (st1, .error e) => (st1, .error e)
  | (st1, .ok input1) =>
    match gradOutput with
    | none => (st1, .ok (input1, none))
    | some go =>
      match makeContigGradOutput st1 go with
      | (st2, .error e) => (st2, .error e)
      | (st2, .ok go1) => (st2, .ok (input1, some go1))

/-- Rational approximation of the real square root used by the external
kernel: for a nonnegative rational a / b this is `Nat.sqrt (a * b) / b`. -/
def ratSqrt (q : Rat) : Rat :=
  if q ≤ 0 then 0 else (Nat.sqrt (q.num.toNat * q.den) : Rat) / (q.den : Rat)

/-- Element `(n, i)` of a 2D tensor with row length `F`. -/
def elem2 (t : PyTensor) (F n i : Nat) : Rat := t.data.getD (n * F + i) 0

/-- Column `i` of a 2D tensor with `N` rows and row length `F`. -/
def colList (t : PyTensor) (N F i : Nat) : List Rat :=
  (List.range N).map fun n => elem2 t F n i

/-- Sum of a list of rationals. -/
def listSum (l : List Rat) : Rat := l.foldr (· + ·) 0

/-- Mean of a list of rationals (division by zero yields zero, unused). -/
def listMean (l : List Rat) : Rat := listSum l / (l.length : Rat)

/-- Result record of the forward kernel. -/
structure FwdOut where
  output : PyTensor
  running_mean : List Rat
  running_var : List Rat
  save_mean : List Rat
  save_std : List Rat

/-- Modelled from the spec: the external THNN kernel
`BatchNormalization_updateOutput` (C code of this repository, not under the
provided sources).  Training mode: per-feature batch mean, biased batch
variance, inverse standard deviation `1 / sqrt(var + eps)`, normalization,
optional affine transform, cache of `(mean, inv std)`, and the exponential
moving average update of the running statistics using the unbiased variance
(falling back to the biased value when the batch has a single row).
Inference mode: normalize with the running statistics, mutate nothing. -/
def thnnUpdateOutput (input : PyTensor) (weight bias : Option (List Rat))
    (running_mean running_var save_mean0 save_std0 : List Rat)
    (train : Bool) (momentum eps : Rat) : FwdOut :=
  let N := input.size 0
  let F := input.size 1
  let affineAt : (Nat → Rat) → Nat → Nat → Rat := fun xhat n i =>
    (match weight with | some w => w.getD i 1 * xhat (n * F + i) | none => xhat (n * F + i)) +
    (match bias with | some b => b.getD i 0 | none => 0)
  if train then
    let mu : Nat → Rat := fun i => listMean (colList input N F i)
    let sqDev : Nat → Rat := fun i =>
      listSum ((colList input N F i).map fun x => (x - mu i) ^ (2 : Nat))
    let varB : Nat → Rat := fun i => sqDev i / (N : Rat)
    let invStd : Nat → Rat := fun i => 1 / ratSqrt (varB i + eps)
    let varU : Nat → Rat := fun i =>
      if 1 < N then sqDev i / ((N : Rat) - 1) else varB i
    let xhat : Nat → Rat := fun k =>
      (elem2 input F (k / F) (k % F) - mu (k % F)) * invStd (k % F)
    let outData := (List.range (N * F)).map fun k => affineAt xhat (k / F) (k % F)
    { output := { shape := input.shape, data := outData, contig := true },
      running_mean := (List.range running_mean.length).map fun i =>
        (1 - momentum) * running_mean.getD i 0 + momentum * mu i,
      running_var := (List.range running_var.length).map fun i =>
        (1 - momentum) * running_var.getD i 0 + momentum * varU i,
      save_mean := (List.range F).map mu,
      save_std := (List.range F).map invStd }
  else
    let invStd : Nat → Rat := fun i => 1 / ratSqrt (running_var.getD i 0 + eps)
    let xhat : Nat → Rat := fun k =>
      (elem2 input F (k / F) (k % F) - running_mean.getD (k % F) 0) * invStd (k % F)
    let outData := (List.range (N * F)).map fun k => affineAt xhat (k / F) (k % F)
    { output := { shape := input.shape, data := outData, contig := true },
      running_mean := running_mean, running_var := running_var,
      save_mean := save_mean0, save_std := save_std0 }

/-- `updateOutput` (forward): validate the input shape, make the input
contiguous, resize the output and cache buffers, then dispatch to the
(spec-modelled) forward kernel and publish its results into the layer. -/
def updateOutput (st : BN) (input0 : PyTensor) : BN × Except PyErr PyTensor :=
  match _checkInputDim st input0 with
  | some e => (st, .error e)
  | none =>
    match _makeContiguous st input0 none with
    | (st1, .error e) => (st1, .error e)
    | (st1, .ok (input, _)) =>
      let st2 := { st1 with
        output := { shape := input.shape,
                    data := resizeList st1.output.data (input.size 0 * input.size 1),
                    contig := true },
        save_mean := .val (some (resizeList (st1.save_mean.value.getD [])
          st1.running_mean.length)),
        save_std := .val (some (resizeList (st1.save_std.value.getD [])
          st1.running_var.length)) }
      let r := thnnUpdateOutput input st2.weight st2.bias st2.running_mean
        st2.running_var (st2.save_mean.value.getD []) (st2.save_std.value.getD [])
        st2.train st2.momentum st2.eps
      let st3 := { st2 with
        output := r.output,
        running_mean := r.running_mean, running_var := r.running_var,
        save_mean := .val (some r.save_mean), save_std := .val (some r.save_std) }
      (st3, .ok st3.output)

/-- Result record of the backward kernel. -/
structure BwdOut where
  gradInput : Option PyTensor
  gradWeight : Option (List Rat)
  gradBias : Option (List Rat)

/-- Modelled from the spec: the external THNN kernel
`BatchNormalization_backward` (C code of this repository, not under the
provided sources).  Per feature, with the cached batch statistics in training
mode (running statistics in inference mode): accumulate
`scale * sum(gradOutput)` into the bias gradient and
`scale * sum(gradOutput * normalized)` into the weight gradient when those
buffers are handed in, and when a gradient-input buffer is handed in produce
the exact training-mode gradient
`invStd * (w * dy - mean(w * dy) - normalized * mean(w * dy * normalized))`
(the plain inference-mode gradient `w * invStd * dy` when not training). -/
def thnnBackward (input gradOutput : PyTensor) (wantGradInput : Bool)
    (gradWeight gradBias : Option (List Rat)) (weight : Option (List Rat))
    (running_mean running_var save_mean save_std : List Rat)
    (train : Bool) (scale eps : Rat) : BwdOut :=
  let N := input.size 0
  let F := input.size 1
  let mu : Nat → Rat := fun i =>
    if train then save_mean.getD i 0 else running_mean.getD i 0
  let invStd : Nat → Rat := fun i =>
    if train then save_std.getD i 0 else 1 / ratSqrt (running_var.getD i 0 + eps)
  let w : Nat → Rat := fun i =>
    match weight with | some wl => wl.getD i 1 | none => 1
  let sumDy : Nat → Rat := fun i => listSum (colList gradOutput N F i)
  let dotp : Nat → Rat := fun i =>
    listSum ((List.range N).map fun n =>
      elem2 gradOutput F n i * ((elem2 input F n i - mu i) * invStd i))
  let gi : Option PyTensor :=
    if wantGradInput then
      some { shape := gradOutput.shape, contig := true,
             data := (List.range (N * F)).map fun k =>
               let n := k / F
               let i := k % F
               if train then
                 invStd i * (w i * elem2 gradOutput F n i
                   - (w i * sumDy i) / (N : Rat)
                   - ((elem2 input F n i - mu i) * invStd i)
                     * ((w i * dotp i) / (N : Rat)))
               else
                 w i * invStd i * elem2 gradOutput F n i }
    else none
  { gradInput := gi,
    gradWeight := gradWeight.map fun gwl =>
      (List.range gwl.length).map fun i => gwl.getD i 0 + scale * dotp i,
    gradBias := gradBias.map fun gbl =>
      (List.range gbl.length).map fun i => gbl.getD i 0 + scale * sumDy i }

/-- Python `scale = scale or 1` on a numeric scale: zero is falsy. -/
def scaleOr1 (scale : Rat) : Rat := if scale = 0 then 1 else scale

/-- `_backward(input, gradOutput, scale, gradInput, gradWeight, gradBias)`.
The three call sites pass either the layer buffers themselves or `None` for
the last three parameters, which is modelled by the three selector flags
(`wantGradInput` also guards the `gradInput.resizeAs(gradOutput)` step the
source performs when the passed buffer `is not None`).  Order of the source:
shape checks on both tensors, the `hasattr` cache guard, contiguity copies,
`scale or 1`, the resize, then the kernel dispatch; finally the method
returns `self.gradInput` whether or not it was requested. -/
def _backward (st : BN) (input0 gradOutput0 : PyTensor) (scale0 : Rat)
    (wantGradInput wantGradWeight wantGradBias : Bool) :
    BN × Except PyErr PyTensor :=
  match _checkInputDim st input0 with
  | some e => (st, .error e)
  | none =>
  match _checkInputDim st gradOutput0 with
  | some e => (st, .error e)
  | none =>
  if ¬ (st.save_mean.present && st.save_std.present) then
    (st, .error (.runtimeError stateErrorMsg))
  else
    match _makeContiguous st input0 (some gradOutput0) with
    | (st1, .error e) => (st1, .error e)
    | (st1, .ok (input, go0)) =>
      let gradOutput := go0.getD gradOutput0
      let scale := scaleOr1 scale0
      let giResized : PyTensor :=
        { shape := gradOutput.shape,
          data := resizeList st1.gradInput.data
            (gradOutput.size 0 * gradOutput.size 1),
          contig := true }
      let st2 :=
        if wantGradInput then { st1 with gradInput := giResized } else st1
      if st2.train ∧ (st2.save_mean.value = none ∨ st2.save_std.value = none) then
        (st2, .error .nullCache)
      else
        let r := thnnBackward input gradOutput wantGradInput
          (if wantGradWeight then st2.gradWeight else none)
          (if wantGradBias then st2.gradBias else none)
          st2.weight st2.running_mean st2.running_var
          (st2.save_mean.value.getD []) (st2.save_std.value.getD [])
          st2.train scale st2.eps
        let st3 := { st2 with
          gradInput := match r.gradInput with
            | some t => t
            | none => st2.gradInput,
          gradWeight := match r.gradWeight with
            | some v => some v
            | none => st2.gradWeight,
          gradBias := match r.gradBias with
            | some v => some v
            | none => st2.gradBias }
        (st3, .ok st3.gradInput)

/-- `backward(input, gradOutput, scale)`: full backward through the shared
routine, with the layer buffers for all three gradients. -/
def backward (st : BN) (input gradOutput : PyTensor) (scale : Rat) :
    BN × Except PyErr PyTensor :=
  _backward st input gradOutput scale true true true

/-- `updateGradInput(input, gradOutput)`: shared routine with scale 1 and only
the gradient-input buffer. -/
def updateGradInput (st : BN) (input gradOutput : PyTensor) :
    BN × Except PyErr PyTensor :=
  _backward st input gradOutput 1 true false false

/-- `accGradParameters(input, gradOutput, scale)`: shared routine with only
the parameter-gradient buffers. -/
def accGradParameters (st : BN) (input gradOutput : PyTensor) (scale : Rat) :
    BN × Except PyErr PyTensor :=
  _backward st input gradOutput scale false true true

/-- `read(file, version)`: the base-class deserialization is external and
modelled as the identity on the already-loaded state; then, for formats older
than 2, when the loaded object carries a truthy `running_std` the method
rebinds `running_var` to `running_std.pow(-2).add(-eps)` and then executes
`self.running_std = nil`, a name that does not exist in Python, raising
`NameError` (reading the attribute when it is absent raises
`AttributeError`). -/
def read (st : BN) (version : Int) : BN × Option PyErr :=
  if version < 2 then
    match st.running_std with
    | .absent => (st, some (.attributeError "running_std"))
    | .val none => (st, none)
    | .val (some sv) =>
        let st1 := { st with
          running_var := sv.map fun x => ((x ^ (2 : Nat))⁻¹) + (-st.eps) }
        (st1, some (.nameError "nil"))
  else (st, none)

/-- Modelled from the spec: `nn.utils.clear` (torch/legacy/nn/utils.py, not
under the provided sources) drops the cached value of an attribute that is
present and leaves an absent attribute absent; it never deletes the slot. -/
def clearAttr {α : Type} : Attr α → Attr α
  | .absent => .absent
  | .val _ => .val none

/-- `clearState`: clear the five legacy buffers kept for old saved models, the
two contiguity buffers and the two forward-cache attributes, then the base
`nn.Module.clearState` (modelled from the spec) empties the `output` and
`gradInput` buffers. -/
def clearState (st : BN) : BN :=
  let st1 := { st with
    buffer := clearAttr st.buffer,
    buffer2 := clearAttr st.buffer2,
    centered := clearAttr st.centered,
    std := clearAttr st.std,
    normalized := clearAttr st.normalized,
    _input := clearAttr st._input,
    _gradOutput := clearAttr st._gradOutput,
    save_mean := clearAttr st.save_mean,
    save_std := clearAttr st.save_std }
  { st1 with output := PyTensor.empty, gradInput := PyTensor.empty }

instance {ε α : Type} [DecidableEq ε] [DecidableEq α] : DecidableEq (Except ε α) :=
  fun x y =>
    match x, y with
    | .error e, .error f =>
        if h : e = f then .isTrue (by rw [h])
        else .isFalse (by intro hh; cases hh; exact h rfl)
    | .error _, .ok _ => .isFalse (by intro hh; cases hh)
    | .ok _, .error _ => .isFalse (by intro hh; cases hh)
    | .ok a, .ok b =>
        if h : a = b then .isTrue (by rw [h])
        else .isFalse (by intro hh; cases hh; exact h rfl)

/-- Degenerate RNG stream used for concrete instances. -/
def draws0 : Nat → Rat := fun _ => 0

/-- Fallback state used only to totalize extraction from `init`. -/
def bnDummy : BN := {
  affine := false, eps := 0, train := true, momentum := 0,
  running_mean := [], running_var := [],
  save_mean := .absent, save_std := .absent,
  weight := none, bias := none, gradWeight := none, gradBias := none,
  output := PyTensor.empty, gradInput := PyTensor.empty,
  _input := .absent, _gradOutput := .absent,
  buffer := .absent, buffer2 := .absent, centered := .absent,
  std := .absent, normalized := .absent, running_std := .absent }

/-- Freshly constructed affine layer with two features (eps and momentum are
irrelevant to the claims exercised on it and chosen as integer literals). -/
def bn2 : BN := (init 2 0 0 true draws0).toOption.getD bnDummy

/-- A contiguous 2-by-2 batch. -/
def t22 : PyTensor := { shape := [2, 2], data := [1, 2, 3, 4] }

/-- A contiguous 3-by-3 batch (feature count 3, mismatching bn2). -/
def t33 : PyTensor := { shape := [3, 3], data := List.replicate 9 0 }

/-- A rank-1 tensor. -/
def t1d : PyTensor := { shape := [3], data := [0, 0, 0] }

/-- A single-feature layer state loaded from a version-1 checkpoint that still
carries `running_std` (value `[2]`), with eps = 1e-5. -/
def bnStd : BN := { bnDummy with
  eps := 1 / 100000, running_mean := [0], running_var := [1],
  save_mean := .val none, save_std := .val none,
  running_std := .val (some [2]) }

theorem clearAttr_value {α : Type} (a : Attr α) : (clearAttr a).value = none := by
  cases a <;> rfl

theorem scaleOr1_zero : scaleOr1 0 = 1 := by simp [scaleOr1]

theorem scaleOr1_one : scaleOr1 1 = 1 := by simp [scaleOr1]

/-- C1: the claim says a backward entry point called before any forward call
raises the StateError; on the code the guard tests `hasattr`, which is always
true because `__init__` assigns `save_mean`/`save_std` (to `None`), so on a
fresh layer every backward entry point sails past the guard and hands the
`None` caches to the external kernel instead of raising the documented
RuntimeError. -/
theorem C1_backward_before_forward_reaches_backend :
    bn2.save_mean.present = true ∧ bn2.save_std.present = true ∧
    (updateGradInput bn2 t22 t22).2 = Except.error PyErr.nullCache ∧
    (backward bn2 t22 t22 1).2 = Except.error PyErr.nullCache ∧
    (accGradParameters bn2 t22 t22 1).2 = Except.error PyErr.nullCache := by
  decide

/-- C2: the claim says the shape errors name both the actual and the expected
dimension or feature count; the rank message does, but the feature-mismatch
message is a Lua-style template with percent placeholders that Python
`str.format` leaves untouched, so the raised message is the literal template
and contains neither number. -/
theorem C2_feature_mismatch_message_is_unformatted :
    (updateOutput bn2 t1d).2 = Except.error (PyErr.runtimeError
      "only mini-batch supported (2D tensor), got 1D tensor instead") ∧
    (updateOutput bn2 t33).2 = Except.error (PyErr.runtimeError
      "got %d-feature tensor, expected %d") ∧
    (backward bn2 t33 t33 1).2 = Except.error (PyErr.runtimeError
      "got %d-feature tensor, expected %d") := by
  decide

/-- C3: the claim says a pre-version-2 load converts `running_std` to
`running_var = running_std^(-2) - eps` and removes `running_std`, completing
without error; the code computes the conversion but then executes
`self.running_std = nil`, and `nil` is not a Python name, so the load raises
`NameError` and `running_std` is never removed. -/
theorem C3_read_conversion_then_nameError :
    (read bnStd 1).2 = some (PyErr.nameError "nil") ∧
    (read bnStd 1).1.running_var = [24999 / 100000] ∧
    (read bnStd 1).1.running_std = Attr.val (some [2]) := by
  refine ⟨rfl, ?_, rfl⟩
  show [((2 : Rat) ^ (2 : Nat))⁻¹ + -(1 / 100000)] = [24999 / 100000]
  norm_num

/-- C4 counterexample: the claim says every feature count at most 0 is
rejected at construction; the constructor only asserts `nOutput != 0`, so
construction with feature count -1 succeeds. -/
theorem C4_counterexample_negative_feature_count :
    (init (-1) 0 0 false draws0).toOption.isSome = true := by
  decide

/-- C4 (amended): the constructor assertion rejects exactly feature count 0;
every nonzero feature count, negative counts included, passes the layer own
validation. -/
theorem C4_amended_assert_rejects_only_zero (n : Int) (e m : Rat) (a : Bool)
    (d : Nat → Rat) :
    (init n e m a d).toOption.isSome = true ↔ n ≠ 0 := by
  by_cases h : n = 0
  · simp [init, h, Except.toOption]
  · by_cases ha : a <;> simp [init, h, ha, Except.toOption]

/-- C6: `clearState` drops the forward cache and the contiguity buffers while
leaving the running statistics, the affine parameters and the gradient
accumulators unchanged. -/
theorem C6_clearState_drops_cache_keeps_stats_and_params (st : BN) :
    (clearState st).save_mean.value = none ∧
    (clearState st).save_std.value = none ∧
    (clearState st)._input.value = none ∧
    (clearState st)._gradOutput.value = none ∧
    (clearState st).running_mean = st.running_mean ∧
    (clearState st).running_var = st.running_var ∧
    (clearState st).weight = st.weight ∧
    (clearState st).bias = st.bias ∧
    (clearState st).gradWeight = st.gradWeight ∧
    (clearState st).gradBias = st.gradBias :=
  ⟨clearAttr_value _, clearAttr_value _, clearAttr_value _, clearAttr_value _,
   rfl, rfl, rfl, rfl, rfl, rfl⟩

/-- C8: `reset` zeroes every element of the running mean and fills the running
variance with ones; when the affine parameters exist the weight is filled with
the uniform draws and the bias is zeroed, and when they do not exist (`None`)
no parameter is touched; the gradient accumulators are untouched either way. -/
theorem C8_reset_initializes_stats_and_params (st : BN) (draws : Nat → Rat) :
    (reset st draws).running_mean = List.replicate st.running_mean.length 0 ∧
    (reset st draws).running_var = List.replicate st.running_var.length 1 ∧
    (reset st draws).weight = st.weight.map (fun w => uniformFill w.length draws) ∧
    (reset st draws).bias = st.bias.map (fun b => List.replicate b.length 0) ∧
    (reset st draws).gradWeight = st.gradWeight ∧
    (reset st draws).gradBias = st.gradBias := by
  cases hw : st.weight <;> cases hb : st.bias <;> simp [reset, hw, hb]

/-- C9: the shared backward routine replaces a falsy scale with 1
(`scale = scale or 1`), so an explicitly passed scale factor of 0 behaves
exactly as a scale factor of 1. -/
theorem C9_zero_scale_behaves_as_scale_one (st : BN) (i g : PyTensor)
    (w1 w2 w3 : Bool) :
    _backward st i g 0 w1 w2 w3 = _backward st i g 1 w1 w2 w3 := by
  unfold _backward
  rw [scaleOr1_zero, scaleOr1_one]

theorem makeContigInput_frame (st : BN) (i : PyTensor) :
    (makeContigInput st i).1.gradWeight = st.gradWeight ∧
    (makeContigInput st i).1.gradBias = st.gradBias ∧
    (makeContigInput st i).1.gradInput = st.gradInput := by
  unfold makeContigInput
  split
  · exact ⟨rfl, rfl, rfl⟩
  · split <;> exact ⟨rfl, rfl, rfl⟩

theorem makeContigGradOutput_frame (st : BN) (g : PyTensor) :
    (makeContigGradOutput st g).1.gradWeight = st.gradWeight ∧
    (makeContigGradOutput st g).1.gradBias = st.gradBias ∧
    (makeContigGradOutput st g).1.gradInput = st.gradInput := by
  unfold makeContigGradOutput
  split
  · exact ⟨rfl, rfl, rfl⟩
  · split <;> exact ⟨rfl, rfl, rfl⟩

theorem makeContigInput_error (st : BN) (i : PyTensor) (st' : BN) (e : PyErr)
    (h : makeContigInput st i = (st', .error e)) :
    e = PyErr.attributeError "_input" := by
  revert h
  unfold makeContigInput
  split
  · intro h; injection h with h1 h2; exact Except.noConfusion h2
  · split
    · intro h; injection h with h1 h2; injection h2 with h3; exact h3.symm
    · intro h; injection h with h1 h2; exact Except.noConfusion h2

theorem makeContigGradOutput_error (st : BN) (g : PyTensor) (st' : BN) (e : PyErr)
    (h : makeContigGradOutput st g = (st', .error e)) :
    e = PyErr.attributeError "_gradOutput" := by
  revert h
  unfold makeContigGradOutput
  split
  · intro h; injection h with h1 h2; exact Except.noConfusion h2
  · split
    · intro h; injection h with h1 h2; injection h2 with h3; exact h3.symm
    · intro h; injection h with h1 h2; exact Except.noConfusion h2

theorem makeContiguous_frame (st : BN) (i : PyTensor) (go : Option PyTensor) :
    (_makeContiguous st i go).1.gradWeight = st.gradWeight ∧
    (_makeContiguous st i go).1.gradBias = st.gradBias ∧
    (_makeContiguous st i go).1.gradInput = st.gradInput := by
  unfold _makeContiguous
  rcases hin : makeContigInput st i with ⟨st1, res1⟩
  have h1 := makeContigInput_frame st i
  rw [hin] at h1
  cases res1 with
  | error e => exact h1
  | ok input1 =>
    cases go with
    | none => exact h1
    | some g0 =>
      dsimp only
      rcases hgo : makeContigGradOutput st1 g0 with ⟨st2, res2⟩
      have h2 := makeContigGradOutput_frame st1 g0
      rw [hgo] at h2
      cases res2 with
      | error e =>
        exact ⟨h2.1.trans h1.1, h2.2.1.trans h1.2.1, h2.2.2.trans h1.2.2⟩
      | ok g1 =>
        exact ⟨h2.1.trans h1.1, h2.2.1.trans h1.2.1, h2.2.2.trans h1.2.2⟩

theorem makeContiguous_error (st : BN) (i : PyTensor) (go : Option PyTensor)
    (st' : BN) (e : PyErr) (h : _makeContiguous st i go = (st', .error e)) :
    e = PyErr.attributeError "_input" ∨ e = PyErr.attributeError "_gradOutput" := by
  unfold _makeContiguous at h
  rcases hin : makeContigInput st i with ⟨st1, res1⟩
  rw [hin] at h
  cases res1 with
  | error e0 =>
    injection h with h1 h2
    injection h2 with h3
    cases h3
    exact Or.inl (makeContigInput_error st i st1 _ hin)
  | ok input1 =>
    cases go with
    | none => injection h with h1 h2; exact Except.noConfusion h2
    | some g0 =>
      dsimp only at h
      rcases hgo : makeContigGradOutput st1 g0 with ⟨st2, res2⟩
      rw [hgo] at h
      cases res2 with
      | error e0 =>
        injection h with h1 h2
        injection h2 with h3
        cases h3
        exact Or.inr (makeContigGradOutput_error st1 g0 st2 _ hgo)
      | ok g1 => injection h with h1 h2; exact Except.noConfusion h2

theorem updateOutput_runtimeError_frame (st : BN) (i : PyTensor) (m : String)
    (h : (updateOutput st i).2 = Except.error (PyErr.runtimeError m)) :
    (updateOutput st i).1 = st := by
  revert h
  unfold updateOutput
  split
  · intro h; rfl
  · split
    · rename_i st1 e heq
      intro h
      injection h with h3
      cases h3
      rcases makeContiguous_error st i none st1 _ heq with h4 | h4 <;>
        exact PyErr.noConfusion h4
    · intro h; exact Except.noConfusion h

theorem backward_runtimeError_frame (st : BN) (i g : PyTensor) (sc : Rat)
    (w1 w2 w3 : Bool) (m : String)
    (h : (_backward st i g sc w1 w2 w3).2 = Except.error (PyErr.runtimeError m)) :
    (_backward st i g sc w1 w2 w3).1 = st := by
  revert h
  unfold _backward
  split
  · intro h; rfl
  · split
    · intro h; rfl
    · split
      · intro h; rfl
      · split
        · rename_i st1 e heq
          intro h
          injection h with h3
          cases h3
          rcases makeContiguous_error st i (some g) st1 _ heq with h4 | h4 <;>
            exact PyErr.noConfusion h4
        · dsimp only
          split <;> split <;> intro h
          · injection h with h3; exact PyErr.noConfusion h3
          · exact Except.noConfusion h
          · injection h with h3; exact PyErr.noConfusion h3
          · exact Except.noConfusion h

theorem backward_gradWeight_frame (st : BN) (i g : PyTensor) (sc : Rat)
    (w1 w3 : Bool) :
    (_backward st i g sc w1 false w3).1.gradWeight = st.gradWeight := by
  unfold _backward
  split
  · rfl
  · split
    · rfl
    · split
      · rfl
      · split
        · rename_i st1 e heq
          have h1 := makeContiguous_frame st i (some g)
          rw [heq] at h1
          exact h1.1
        · rename_i st1 input1 go1 heq
          have h1 := makeContiguous_frame st i (some g)
          rw [heq] at h1
          dsimp only
          (split <;> split <;> simp [thnnBackward]) <;> exact h1.1

theorem backward_gradBias_frame (st : BN) (i g : PyTensor) (sc : Rat)
    (w1 w2 : Bool) :
    (_backward st i g sc w1 w2 false).1.gradBias = st.gradBias := by
  unfold _backward
  split
  · rfl
  · split
    · rfl
    · split
      · rfl
      · split
        · rename_i st1 e heq
          have h1 := makeContiguous_frame st i (some g)
          rw [heq] at h1
          exact h1.2.1
        · rename_i st1 input1 go1 heq
          have h1 := makeContiguous_frame st i (some g)
          rw [heq] at h1
          dsimp only
          (split <;> split <;> simp [thnnBackward]) <;> exact h1.2.1

theorem backward_gradInput_frame (st : BN) (i g : PyTensor) (sc : Rat)
    (w2 w3 : Bool) :
    (_backward st i g sc false w2 w3).1.gradInput = st.gradInput := by
  unfold _backward
  split
  · rfl
  · split
    · rfl
    · split
      · rfl
      · split
        · rename_i st1 e heq
          have h1 := makeContiguous_frame st i (some g)
          rw [heq] at h1
          exact h1.2.2
        · rename_i st1 input1 go1 heq
          have h1 := makeContiguous_frame st i (some g)
          rw [heq] at h1
          dsimp only
          (split <;> split <;> simp [thnnBackward]) <;>
            first
            | exact h1.2.2
            | simp_all

theorem backward_returns_gradInput (st : BN) (i g : PyTensor) (sc : Rat)
    (w1 w2 w3 : Bool) :
    (∃ e, (_backward st i g sc w1 w2 w3).2 = Except.error e) ∨
      (_backward st i g sc w1 w2 w3).2 =
        Except.ok ((_backward st i g sc w1 w2 w3).1.gradInput) := by
  unfold _backward
  split
  · exact Or.inl ⟨_, rfl⟩
  · split
    · exact Or.inl ⟨_, rfl⟩
    · split
      · exact Or.inl ⟨_, rfl⟩
      · split
        · exact Or.inl ⟨_, rfl⟩
        · dsimp only
          split <;> split
          · exact Or.inl ⟨_, rfl⟩
          · exact Or.inr rfl
          · exact Or.inl ⟨_, rfl⟩
          · exact Or.inr rfl

/-- C5: whenever a public entry point raises one of the validation
RuntimeErrors (wrong rank, feature-count mismatch, or the cache guard), the
layer state is returned exactly as it was: validation precedes every
mutation. -/
theorem C5_validation_failure_leaves_state_unchanged (st : BN) (i g : PyTensor)
    (sc : Rat) (m : String) :
    ((updateOutput st i).2 = Except.error (PyErr.runtimeError m) →
      (updateOutput st i).1 = st) ∧
    ((backward st i g sc).2 = Except.error (PyErr.runtimeError m) →
      (backward st i g sc).1 = st) ∧
    ((updateGradInput st i g).2 = Except.error (PyErr.runtimeError m) →
      (updateGradInput st i g).1 = st) ∧
    ((accGradParameters st i g sc).2 = Except.error (PyErr.runtimeError m) →
      (accGradParameters st i g sc).1 = st) :=
  ⟨fun h => updateOutput_runtimeError_frame st i m h,
   fun h => backward_runtimeError_frame st i g sc true true true m h,
   fun h => backward_runtimeError_frame st i g 1 true false false m h,
   fun h => backward_runtimeError_frame st i g sc false true true m h⟩

/-- C5 witness: a concrete failing validation (rank-1 input) on the fresh
two-feature layer leaves its state untouched for all four entry points. -/
theorem C5_witness :
    (updateOutput bn2 t1d).1 = bn2 ∧ (backward bn2 t1d t1d 1).1 = bn2 ∧
    (updateGradInput bn2 t1d t1d).1 = bn2 ∧
    (accGradParameters bn2 t1d t1d 1).1 = bn2 := by
  have h := C5_validation_failure_leaves_state_unchanged bn2 t1d t1d 1
    "only mini-batch supported (2D tensor), got 1D tensor instead"
  exact ⟨h.1 (by decide), h.2.1 (by decide), h.2.2.1 (by decide),
    h.2.2.2 (by decide)⟩

/-- C7: `updateGradInput` is exactly the shared backward routine with scale
fixed at 1 and only the gradient-input buffer requested, and it leaves the
parameter gradient accumulators untouched. -/
theorem C7_updateGradInput_scale_one_no_param_grads (st : BN) (i g : PyTensor) :
    updateGradInput st i g = _backward st i g 1 true false false ∧
    (updateGradInput st i g).1.gradWeight = st.gradWeight ∧
    (updateGradInput st i g).1.gradBias = st.gradBias :=
  ⟨rfl, backward_gradWeight_frame st i g 1 true false,
    backward_gradBias_frame st i g 1 true false⟩

/-- C10: every backward entry point returns the gradInput buffer of the layer
(the post-call one) when it completes; in particular `accGradParameters`
leaves that buffer unmodified and, when it completes, returns the pre-call
buffer unchanged. -/
theorem C10_entry_points_return_gradInput_buffer (st : BN) (i g : PyTensor)
    (sc : Rat) :
    (accGradParameters st i g sc).1.gradInput = st.gradInput ∧
    ((∃ e, (accGradParameters st i g sc).2 = Except.error e) ∨
      (accGradParameters st i g sc).2 = Except.ok st.gradInput) ∧
    ((∃ e, (backward st i g sc).2 = Except.error e) ∨
      (backward st i g sc).2 = Except.ok ((backward st i g sc).1.gradInput)) ∧
    ((∃ e, (updateGradInput st i g).2 = Except.error e) ∨
      (updateGradInput st i g).2 =
        Except.ok ((updateGradInput st i g).1.gradInput)) := by
  have h1 : (accGradParameters st i g sc).1.gradInput = st.gradInput :=
    backward_gradInput_frame st i g sc true true
  refine ⟨h1, ?_, backward_returns_gradInput st i g sc true true true,
    backward_returns_gradInput st i g 1 true false false⟩
  rcases backward_returns_gradInput st i g sc false true true with ⟨e, he⟩ | hok
  · exact Or.inl ⟨e, he⟩
  · refine Or.inr ?_
    show (_backward st i g sc false true true).2 = Except.ok st.gradInput
    rw [hok]
    exact congrArg Except.ok h1

end LegacyBN
